import Mathlib

/-!
Verification of the sustineo agent-tool layer.

Shallow embedding of `src/api/agent/agents.py` (the tools
`gpt_image_generation`, `gpt_image_edit`, `sora_video_generation`) and of
`src/api/tools/image/__init__.py` (`create_image`).

The tools are coroutines that emit progress events through a `notify`
channel, call external providers over HTTP, persist artifacts, and return a
list of artifact references.  The embedding turns each tool into a pure
function from an oracle describing the provider's responses to the pair of
(sequence of emitted events, returned value).  A Python exception escaping
the tool is modelled as `Except.error`; a loop that would poll forever
because the oracle ran out of responses is modelled as a `diverge` outcome.

Collaborators that are not part of the two source files are modelled from
the spec where the tools depend on them:
  * `post_request` (api.agent.common): yields the provider's parsed JSON
    body; per spec section 4.2, transport failures surface through the
    `error` field of that body, so `ImageResp.error` covers both an error
    field in a 2xx body and a non-2xx transport outcome.
  * `save_image_blobs` / `save_image_blob` / `save_video_blob`
    (api.storage): per spec section 6 the persistence adapter turns encoded
    payloads into stored reference strings, one per input, in input order;
    they are passed as function parameters (or an oracle field for the
    video blob).
-/

/-- One entry of the `data` array of an image provider response
(`{b64_json: string}`).  `none` models a missing `b64_json` key (a Python
`KeyError` on access). -/
structure ImageItem where
  b64_json : Option String
  deriving DecidableEq, Repr

/-- Parsed body yielded by `post_request` for the image generation / edit
calls.  `error = some e` models `"error" in response`; `data = none` models
a body without a `data` key (so `response["data"]` raises), while
`data = some l` is the list of result entries. -/
structure ImageResp where
  error : Option String
  data : Option (List ImageItem)
  deriving DecidableEq, Repr

/-- The content payload attached to a `step completed` event: a typed
record holding a list of key/value dictionaries, mirroring the `Content`
model of `api.model`. -/
structure Content where
  type : String
  content : List (List (String × String))
  deriving DecidableEq, Repr

/-- One progress event sent through the notify channel: tool identifier,
lifecycle phase string, optional human-readable message, optional content
payload and the output flag. -/
structure Event where
  id : String
  status : String
  information : Option String
  content : Option Content
  output : Bool
  deriving DecidableEq, Repr

/-- An event is terminal-phase when it closes the invocation: either the
final `run completed` notification or a `step failed` notification. -/
def isTerminalEvent (e : Event) : Bool :=
  e.status == "run completed" || e.status == "step failed"

/-- Number of terminal-phase events in an event trace. -/
def terminalCount (es : List Event) : Nat :=
  (es.filter isTerminalEvent).length

/- Events of `gpt_image_generation` (agents.py lines 38-125). -/

def imageGenStarted : Event :=
  ⟨"image_generation", "run in_progress", some "Starting image generation", none, false⟩

def imageGenExecuting : Event :=
  ⟨"image_generation", "step in_progress", some "Executing Model", none, false⟩

def imageGenFailed (err : String) : Event :=
  ⟨"image_generation", "step failed", some err, none, false⟩

def imageGenFetching (n : Int) : Event :=
  ⟨"image_generation", "step in_progress",
    some (if n > 1 then "fetching images" else "fetching image"), none, false⟩

def imageGenStoring (n : Int) : Event :=
  ⟨"image_generation", "step in_progress",
    some (if n > 1 then "storing images" else "storing image"), none, false⟩

def imageStepCompleted (description blob : String) : Event :=
  ⟨"image_generation", "step completed", none,
    some ⟨"image",
      [[("type", "image"), ("description", description), ("size", "1024x1024"),
        ("quality", "low"), ("image_url", blob)]]⟩, true⟩

def imageGenCompleted : Event :=
  ⟨"image_generation", "run completed", some "Image generation complete", none, false⟩

/-- The list comprehension
`[item["b64_json"] for item in response["data"] if item["b64_json"]]`:
reads the `b64_json` key of every entry (raising `KeyError` when absent)
and keeps the truthy (non-empty) payloads, in order. -/
def extract_b64 : List ImageItem → Except String (List String)
  | [] => Except.ok []
  | item :: rest =>
    match item.b64_json with
    | none => Except.error "KeyError: b64_json"
    | some s =>
      match extract_b64 rest with
      | Except.error e => Except.error e
      | Except.ok tail => Except.ok (if s = "" then tail else s :: tail)

/-- Embedding of `gpt_image_generation` (agents.py lines 29-127).
Given the provider response it produces the emitted event trace and the
returned reference list (`Except.error` = an uncaught Python exception).
The branches follow the source: error field check, `fetching` progress
event, empty-`data` early return, `storing` progress event, payload
extraction, then one persistence step and one `step completed` event per
stored blob, closed by `run completed`. -/
def gpt_image_generation (description : String) (n : Int)
    (save_image_blobs : List String → List String) :
    ImageResp → List Event × Except String (List String)
  | ⟨some err, _⟩ =>
    ([imageGenStarted, imageGenExecuting, imageGenFailed err], Except.ok [])
  | ⟨none, none⟩ =>
    ([imageGenStarted, imageGenExecuting, imageGenFetching n],
     Except.error "KeyError: data")
  | ⟨none, some []⟩ =>
    ([imageGenStarted, imageGenExecuting, imageGenFetching n], Except.ok [])
  | ⟨none, some (item :: rest)⟩ =>
    match extract_b64 (item :: rest) with
    | Except.error e =>
      ([imageGenStarted, imageGenExecuting, imageGenFetching n, imageGenStoring n],
       Except.error e)
    | Except.ok base64_images =>
      let images := save_image_blobs base64_images
      ([imageGenStarted, imageGenExecuting, imageGenFetching n, imageGenStoring n]
        ++ images.map (imageStepCompleted description)
        ++ [imageGenCompleted],
       Except.ok images)

/- Events of `gpt_image_edit` (agents.py lines 239-329).  The failure
event of this tool reuses the identifier `image_generation` (line 277 of
the source), not `image_edit`; the embedding therefore reuses
`imageGenFailed`. -/

def imageEditStarted : Event :=
  ⟨"image_edit", "run in_progress", some "Starting image edit", none, false⟩

def imageEditExecuting : Event :=
  ⟨"image_edit", "step in_progress", some "Executing Model", none, false⟩

def imageEditFetching : Event :=
  ⟨"image_edit", "step in_progress", some "fetching image", none, false⟩

def imageEditStoring : Event :=
  ⟨"image_edit", "step in_progress", some "storing image", none, false⟩

def imageEditStepCompleted (description kind blob : String) : Event :=
  ⟨"image_edit", "step completed", none,
    some ⟨"image",
      [[("type", "image"), ("description", description), ("image_url", blob),
        ("kind", kind)]]⟩, true⟩

def imageEditCompleted : Event :=
  ⟨"image_edit", "run completed", some "Image edit complete", none, false⟩

/-- Embedding of `gpt_image_edit` (agents.py lines 224-331).  The `image`
argument only feeds the multipart form sent to the provider (transport,
external), so it does not influence the trace or the result. -/
def gpt_image_edit (description image kind : String)
    (save_image_blobs : List String → List String) :
    ImageResp → List Event × Except String (List String)
  | ⟨some err, _⟩ =>
    ([imageEditStarted, imageEditExecuting, imageGenFailed err], Except.ok [])
  | ⟨none, none⟩ =>
    ([imageEditStarted, imageEditExecuting, imageEditFetching],
     Except.error "KeyError: data")
  | ⟨none, some []⟩ =>
    ([imageEditStarted, imageEditExecuting, imageEditFetching], Except.ok [])
  | ⟨none, some (item :: rest)⟩ =>
    match extract_b64 (item :: rest) with
    | Except.error e =>
      ([imageEditStarted, imageEditExecuting, imageEditFetching, imageEditStoring],
       Except.error e)
    | Except.ok base64_images =>
      let images := save_image_blobs base64_images
      ([imageEditStarted, imageEditExecuting, imageEditFetching, imageEditStoring]
        ++ images.map (imageEditStepCompleted description kind)
        ++ [imageEditCompleted],
       Except.ok images)

/- Embedding of `sora_video_generation` (agents.py lines 338-478). -/

/-- One entry of the `generations` array of a status response
(`{id: string}`, spec section 6 wire shapes). -/
structure GenEntry where
  id : String
  deriving DecidableEq, Repr

/-- Outcome of one status fetch inside the polling loop: either a
transport failure (`status_response.status != 200`, carrying the optional
`error` field of the error body) or a parsed status payload with its
`status` string and its `generations` array (`.get("generations", [])`). -/
inductive PollResp where
  | err (errorMsg : Option String)
  | ok (status : String) (generations : List GenEntry)
  deriving DecidableEq, Repr

/-- The check `status in ("succeeded", "failed", "cancelled")`. -/
def isTerminal (st : String) : Bool :=
  st == "succeeded" || st == "failed" || st == "cancelled"

def soraStart : Event :=
  ⟨"sora_video_generation", "run in_progress", some "Starting video generation", none, false⟩

def soraExec : Event :=
  ⟨"sora_video_generation", "step in_progress", some "Executing Model", none, false⟩

def soraCreateFailEvent (detail : Option String) : Event :=
  ⟨"sora_video_generation", "step failed", some (detail.getD "Unknown error"), none, false⟩

/-- Line 393 of the source uses the phase string `step_in_progress`
(underscore), unlike every other in-progress event of this tool. -/
def soraJobCreated (jobId : String) : Event :=
  ⟨"sora_video_generation", "step_in_progress",
    some ("Video generation job created: " ++ jobId), none, false⟩

def statusChangeEvent (st : String) : Event :=
  ⟨"sora_video_generation", "step in_progress", some ("job status: " ++ st), none, false⟩

def pollFailEvent (msg : Option String) : Event :=
  ⟨"sora_video_generation", "step failed", some (msg.getD "Unknown error"), none, false⟩

/-- The content-fetch failure event (agents.py line 437) carries the
identifier `video_generation`, not `sora_video_generation`. -/
def soraFetchFailEvent (msg : Option String) : Event :=
  ⟨"video_generation", "step failed", some (msg.getD "Unknown error"), none, false⟩

def soraMovingToStorage : Event :=
  ⟨"sora_video_generation", "step in_progress", some "Moving video to storage", none, false⟩

def soraVideoCompleted (description : String) (seconds : Int) (blob : String) : Event :=
  ⟨"sora_video_generation", "step completed", none,
    some ⟨"video",
      [[("type", "video"), ("description", description), ("video_url", blob),
        ("duration", toString seconds)]]⟩, true⟩

def soraRunCompleted : Event :=
  ⟨"sora_video_generation", "run completed", some "Video generation complete", none, false⟩

/-- Result of the polling loop (agents.py lines 398-423).  Each
constructor carries the events the loop emitted and the list of waits the
loop performed (one `asyncio.sleep(5)` per iteration, recorded as the
constant 5).  `failed` is a mid-poll transport error (the tool returns
`[]` immediately); `terminal` carries the terminal status together with
the `generations` array of the last status payload; `exhausted` means the
supplied oracle ran out of responses while the status was still
non-terminal, i.e. the real loop would still be polling. -/
inductive LoopResult where
  | failed (events : List Event) (delays : List Nat)
  | terminal (events : List Event) (delays : List Nat)
      (finalStatus : String) (generations : List GenEntry)
  | exhausted (events : List Event) (delays : List Nat)
  deriving DecidableEq, Repr

def LoopResult.events : LoopResult → List Event
  | .failed es _ => es
  | .terminal es _ _ _ => es
  | .exhausted es _ => es

def LoopResult.delays : LoopResult → List Nat
  | .failed _ ds => ds
  | .terminal _ ds _ _ => ds
  | .exhausted _ ds => ds

/-- Embedding of the `while status not in ("succeeded", "failed",
"cancelled")` loop.  Each iteration sleeps 5 seconds, fetches the status
(the next oracle entry), returns on a transport error after emitting one
`step failed` event, emits a `job status: ...` progress event only when
the observed status differs from the previously observed one (the
previous observation starts at the sentinel `"started"`), and stops when
the observed status is terminal. -/
def sora_poll_loop : String → List PollResp → LoopResult
  | _, [] => LoopResult.exhausted [] []
  | _, PollResp.err msg :: _ => LoopResult.failed [pollFailEvent msg] [5]
  | prev, PollResp.ok st gens :: rest =>
    if isTerminal st then
      LoopResult.terminal (if prev = st then [] else [statusChangeEvent st]) [5] st gens
    else
      match sora_poll_loop st rest with
      | LoopResult.failed es ds =>
        LoopResult.failed ((if prev = st then [] else [statusChangeEvent st]) ++ es) (5 :: ds)
      | LoopResult.terminal es ds st2 g =>
        LoopResult.terminal ((if prev = st then [] else [statusChangeEvent st]) ++ es) (5 :: ds) st2 g
      | LoopResult.exhausted es ds =>
        LoopResult.exhausted ((if prev = st then [] else [statusChangeEvent st]) ++ es) (5 :: ds)

/-- Oracle for one run of the video tool: the HTTP status and body fields
of the job-creation response, the sequence of poll outcomes, the HTTP
status and error body of the content fetch, and the reference produced by
`save_video_blob` (api.storage, modelled from the spec's persistence
adapter contract, section 6). -/
structure SoraOracle where
  createStatus : Nat
  createDetail : Option String
  createId : String
  polls : List PollResp
  fetchStatus : Nat
  fetchError : Option String
  videoBlob : String
  deriving DecidableEq, Repr

/-- Outcome of one invocation of the video tool: either the tool returns
(`done`, with the emitted events and the returned list) or the polling
loop outlives the oracle (`diverge`). -/
inductive RunResult where
  | done (events : List Event) (ret : List String)
  | diverge (events : List Event)
  deriving DecidableEq, Repr

def RunResult.events : RunResult → List Event
  | .done es _ => es
  | .diverge es => es

/-- Embedding of `sora_video_generation` (agents.py lines 338-478).
Mirrors the source: a non-201 creation response emits one `step failed`
and returns `[]`; otherwise the job-created event is emitted and the
polling loop runs; a mid-poll transport error returns `[]`; on a terminal
status, only `succeeded` with a non-empty `generations` array attempts the
content fetch (a non-200 fetch emits the mis-labelled failure event and
returns `[]`; a 200 fetch persists the video and emits `step completed`);
every remaining path falls through to the unconditional `run completed`
notification and the literal `return [""]` of line 476 (the
`return []` on line 478 is unreachable). -/
def sora_video_generation (description : String) (seconds : Int)
    (o : SoraOracle) : RunResult :=
  if o.createStatus ≠ 201 then
    RunResult.done [soraStart, soraExec, soraCreateFailEvent o.createDetail] []
  else
    match sora_poll_loop "started" o.polls with
    | LoopResult.failed es _ =>
      RunResult.done ([soraStart, soraExec, soraJobCreated o.createId] ++ es) []
    | LoopResult.exhausted es _ =>
      RunResult.diverge ([soraStart, soraExec, soraJobCreated o.createId] ++ es)
    | LoopResult.terminal es _ st gens =>
      if st = "succeeded" then
        match gens with
        | [] =>
          RunResult.done
            ([soraStart, soraExec, soraJobCreated o.createId] ++ es ++ [soraRunCompleted]) [""]
        | _ :: _ =>
          if o.fetchStatus ≠ 200 then
            RunResult.done
              ([soraStart, soraExec, soraJobCreated o.createId] ++ es
                ++ [soraFetchFailEvent o.fetchError]) []
          else
            RunResult.done
              ([soraStart, soraExec, soraJobCreated o.createId] ++ es ++
                [soraMovingToStorage,
                 soraVideoCompleted description seconds o.videoBlob,
                 soraRunCompleted]) [""]
      else
        RunResult.done
          ([soraStart, soraExec, soraJobCreated o.createId] ++ es ++ [soraRunCompleted]) [""]

/- Embedding of `create_image` (src/api/tools/image/__init__.py,
lines 83-163). -/

/-- Oracle for one invocation of the `/create` endpoint: the HTTP status
of the optional reference-image fetch, the HTTP status of the provider
call, its parsed body (`none` models a falsy body or one without a usable
`data` array; `some l` is the list of `b64_json` payloads), and the
`response.text()` of a non-200 answer. -/
structure ImageToolOracle where
  urlFetchStatus : Nat
  postStatus : Nat
  postData : Option (List String)
  errorText : String
  deriving DecidableEq, Repr

/-- Embedding of `create_image`.  `Except.error` models a raised
exception escaping the endpoint.  `save_image_blob` (api.storage, not in
src) is modelled from the spec's persistence adapter contract as a
function from the encoded payload to a stored reference name.  The
response handling follows the source: a 200 response with a non-empty
`data` array persists the first payload and returns the public URL; a 200
response without usable data falls through to
`raise Exception("No image data returned from the API.")`; a non-200
response raises with the provider's error text; a reference-image URL
whose fetch is non-200 raises before the provider is called. -/
def create_image (requestImage : Option String) (description : String)
    (save_image_blob : String → String) (baseUrl : String)
    (o : ImageToolOracle) : Except String String :=
  let post : Except String String :=
    if o.postStatus = 200 then
      match o.postData with
      | some (b64 :: _) => Except.ok (baseUrl ++ "/" ++ save_image_blob b64)
      | _ => Except.error "No image data returned from the API."
    else
      Except.error ("Error generating image: " ++ o.errorText)
  match requestImage with
  | some img =>
    if img.startsWith "http" then
      if o.urlFetchStatus = 200 then post
      else Except.error ("Error fetching image from URL: " ++ img)
    else post
  | none => post

/- Observations over traces and oracles, used to state the claims. -/

deriving instance DecidableEq for Except

/-- The status-change progress events of the polling loop are the
`step in_progress` events whose message starts with `job status: `
(the first 12 characters of the message, compared as character lists). -/
def isStatusChange (e : Event) : Bool :=
  e.status == "step in_progress" &&
    (e.information.getD "").data.take 12 == "job status: ".data

/-- Number of status-change progress events in a trace. -/
def statusChangeCount (es : List Event) : Nat :=
  (es.filter isStatusChange).length

/-- A poll outcome that parsed successfully (HTTP 200). -/
def PollResp.isOk : PollResp → Bool
  | .err _ => false
  | .ok _ _ => true

/-- A poll outcome that keeps the loop running: a parsed status payload
whose status is not terminal. -/
def PollResp.nonTerminalOk : PollResp → Bool
  | .err _ => false
  | .ok st _ => !(isTerminal st)

/-- The prefix of the oracle's poll outcomes the loop actually consumes:
everything up to and including the first transport error or terminal
status (the whole list when neither occurs). -/
def consumedPolls : List PollResp → List PollResp
  | [] => []
  | PollResp.err m :: _ => [PollResp.err m]
  | PollResp.ok st g :: rest =>
    if isTerminal st then [PollResp.ok st g] else PollResp.ok st g :: consumedPolls rest

/-- The statuses the loop observes, in order: one per successful fetch, up
to and including the first terminal status; empty from a transport error
on. -/
def observedStatuses : List PollResp → List String
  | [] => []
  | PollResp.err _ :: _ => []
  | PollResp.ok st _ :: rest =>
    if isTerminal st then [st] else st :: observedStatuses rest

/-- The subsequence of observed statuses that differ from the previously
observed status (the edge transitions), starting from a given previous
observation. -/
def edgeStatuses : String → List String → List String
  | _, [] => []
  | prev, s :: rest => (if prev = s then [] else [s]) ++ edgeStatuses s rest


/- Helper lemmas. -/

theorem filter_map_of_false {α β : Type} (p : β → Bool) (f : α → β)
    (h : ∀ b, p (f b) = false) (l : List α) : (l.map f).filter p = [] := by
  induction l with
  | nil => rfl
  | cons a t ih => simp [List.filter_cons, h, ih]

theorem filter_map_of_true {α β : Type} (p : β → Bool) (f : α → β)
    (h : ∀ b, p (f b) = true) (l : List α) : (l.map f).filter p = l.map f := by
  induction l with
  | nil => rfl
  | cons a t ih => simp [List.filter_cons, h, ih]

theorem terminalCount_append (l1 l2 : List Event) :
    terminalCount (l1 ++ l2) = terminalCount l1 + terminalCount l2 := by
  simp [terminalCount, List.filter_append]

theorem isTerminalEvent_imageStepCompleted (d b : String) :
    isTerminalEvent (imageStepCompleted d b) = false := rfl

theorem isTerminalEvent_imageEditStepCompleted (d k b : String) :
    isTerminalEvent (imageEditStepCompleted d k b) = false := rfl

theorem isTerminalEvent_statusChangeEvent (st : String) :
    isTerminalEvent (statusChangeEvent st) = false := rfl

theorem terminalCount_map_statusChange (l : List String) :
    terminalCount (l.map statusChangeEvent) = 0 := by
  simp [terminalCount, filter_map_of_false _ _ isTerminalEvent_statusChangeEvent]

/-- Evaluating `extract_b64` on a list of well-formed entries with non-empty payloads
returns exactly the payload list. -/
theorem extract_b64_map (l : List String) (h : ∀ s ∈ l, s ≠ "") :
    extract_b64 (l.map fun s => (⟨some s⟩ : ImageItem)) = Except.ok l := by
  induction l with
  | nil => rfl
  | cons a t ih =>
    have ha : a ≠ "" := h a (List.mem_cons_self a t)
    have ht := ih fun s hs => h s (List.mem_cons_of_mem a hs)
    simp [extract_b64, ht, ha]

/-- Whenever the polling loop ends in a transport error, the events it
emitted are status-change events followed by exactly one failure event. -/
theorem sora_poll_loop_failed_shape (polls : List PollResp) :
    ∀ (prev : String) (es : List Event) (ds : List Nat),
      sora_poll_loop prev polls = LoopResult.failed es ds →
      ∃ (l : List String) (m : Option String),
        es = l.map statusChangeEvent ++ [pollFailEvent m] := by
  induction polls with
  | nil => intro prev es ds h; simp [sora_poll_loop] at h
  | cons p rest ih =>
    intro prev es ds h
    cases p with
    | err m =>
      simp [sora_poll_loop] at h
      exact ⟨[], m, by simp [h.1]⟩
    | ok st g =>
      rw [sora_poll_loop] at h
      by_cases hterm : isTerminal st
      · rw [if_pos hterm] at h; exact absurd h (by simp)
      · rw [if_neg hterm] at h
        cases hr : sora_poll_loop st rest with
        | failed es2 ds2 =>
          rw [hr] at h
          simp only [LoopResult.failed.injEq] at h
          obtain ⟨l2, m2, hshape⟩ := ih st es2 ds2 hr
          refine ⟨(if prev = st then [] else [st]) ++ l2, m2, ?_⟩
          rw [← h.1, hshape]
          by_cases hp : prev = st <;> simp [hp]
        | terminal es2 ds2 st2 g2 => rw [hr] at h; exact absurd h (by simp)
        | exhausted es2 ds2 => rw [hr] at h; exact absurd h (by simp)

/-- Whenever the polling loop reaches a terminal status, the events it
emitted are exactly status-change events. -/
theorem sora_poll_loop_terminal_shape (polls : List PollResp) :
    ∀ (prev : String) (es : List Event) (ds : List Nat) (st : String) (g : List GenEntry),
      sora_poll_loop prev polls = LoopResult.terminal es ds st g →
      ∃ l : List String, es = l.map statusChangeEvent := by
  induction polls with
  | nil => intro prev es ds st g h; simp [sora_poll_loop] at h
  | cons p rest ih =>
    intro prev es ds st g h
    cases p with
    | err m => simp [sora_poll_loop] at h
    | ok st1 g1 =>
      rw [sora_poll_loop] at h
      by_cases hterm : isTerminal st1
      · rw [if_pos hterm] at h
        simp only [LoopResult.terminal.injEq] at h
        refine ⟨if prev = st1 then [] else [st1], ?_⟩
        rw [← h.1]
        by_cases hp : prev = st1 <;> simp [hp]
      · rw [if_neg hterm] at h
        cases hr : sora_poll_loop st1 rest with
        | failed es2 ds2 => rw [hr] at h; exact absurd h (by simp)
        | terminal es2 ds2 st2 g2 =>
          rw [hr] at h
          simp only [LoopResult.terminal.injEq] at h
          obtain ⟨l2, hshape⟩ := ih st1 es2 ds2 st2 g2 hr
          refine ⟨(if prev = st1 then [] else [st1]) ++ l2, ?_⟩
          rw [← h.1, hshape]
          by_cases hp : prev = st1 <;> simp [hp]
        | exhausted es2 ds2 => rw [hr] at h; exact absurd h (by simp)

/-- On a run of poll outcomes that all parse (no transport error), the
events emitted by the loop are exactly one status-change event per edge in
the observed status sequence, in order. -/
theorem sora_poll_loop_events_of_ok (polls : List PollResp) :
    ∀ prev : String, (∀ p ∈ polls, p.isOk = true) →
      (sora_poll_loop prev polls).events
        = (edgeStatuses prev (observedStatuses polls)).map statusChangeEvent := by
  induction polls with
  | nil => intro prev _; rfl
  | cons p rest ih =>
    intro prev hok
    cases p with
    | err m => exact absurd (hok _ (List.mem_cons_self _ _)) (by simp [PollResp.isOk])
    | ok st g =>
      have hrest : ∀ p ∈ rest, p.isOk = true := fun p hp => hok p (List.mem_cons_of_mem _ hp)
      rw [sora_poll_loop]
      by_cases hterm : isTerminal st
      · rw [if_pos hterm]
        simp only [observedStatuses, if_pos hterm, edgeStatuses, LoopResult.events]
        by_cases hp : prev = st <;> simp [hp]
      · rw [if_neg hterm]
        have hih := ih st hrest
        cases hr : sora_poll_loop st rest with
        | failed es2 ds2 =>
          rw [hr] at hih
          simp only [observedStatuses, if_neg hterm, edgeStatuses, LoopResult.events,
            List.map_append] at hih ⊢
          by_cases hp : prev = st <;> simp [hp, hih]
        | terminal es2 ds2 st2 g2 =>
          rw [hr] at hih
          simp only [observedStatuses, if_neg hterm, edgeStatuses, LoopResult.events,
            List.map_append] at hih ⊢
          by_cases hp : prev = st <;> simp [hp, hih]
        | exhausted es2 ds2 =>
          rw [hr] at hih
          simp only [observedStatuses, if_neg hterm, edgeStatuses, LoopResult.events,
            List.map_append] at hih ⊢
          by_cases hp : prev = st <;> simp [hp, hih]

/-- The loop performs exactly one constant five-second wait per consumed
poll outcome. -/
theorem sora_poll_loop_delays (polls : List PollResp) :
    ∀ prev : String,
      (sora_poll_loop prev polls).delays = List.replicate (consumedPolls polls).length 5 := by
  induction polls with
  | nil => intro prev; rfl
  | cons p rest ih =>
    intro prev
    cases p with
    | err m => rfl
    | ok st g =>
      rw [sora_poll_loop]
      by_cases hterm : isTerminal st
      · rw [if_pos hterm]
        simp [consumedPolls, hterm, LoopResult.delays]
      · rw [if_neg hterm]
        have hih := ih st
        cases hr : sora_poll_loop st rest with
        | failed es2 ds2 =>
          rw [hr] at hih
          simp only [LoopResult.delays] at hih
          simp [consumedPolls, hterm, LoopResult.delays, hih, List.replicate_succ]
        | terminal es2 ds2 st2 g2 =>
          rw [hr] at hih
          simp only [LoopResult.delays] at hih
          simp [consumedPolls, hterm, LoopResult.delays, hih, List.replicate_succ]
        | exhausted es2 ds2 =>
          rw [hr] at hih
          simp only [LoopResult.delays] at hih
          simp [consumedPolls, hterm, LoopResult.delays, hih, List.replicate_succ]

/-- There is no maximum attempt count: however many non-terminal statuses
are observed, the loop is still running afterwards. -/
theorem sora_poll_loop_no_cap (polls : List PollResp) :
    ∀ prev : String, (∀ p ∈ polls, p.nonTerminalOk = true) →
      ∃ es ds, sora_poll_loop prev polls = LoopResult.exhausted es ds := by
  induction polls with
  | nil => intro prev _; exact ⟨[], [], rfl⟩
  | cons p rest ih =>
    intro prev hnt
    cases p with
    | err m => exact absurd (hnt _ (List.mem_cons_self _ _)) (by simp [PollResp.nonTerminalOk])
    | ok st g =>
      have hterm : isTerminal st = false := by
        have := hnt _ (List.mem_cons_self _ _)
        simpa [PollResp.nonTerminalOk] using this
      obtain ⟨es, ds, hr⟩ := ih st fun p hp => hnt p (List.mem_cons_of_mem _ hp)
      rw [sora_poll_loop, if_neg (by simp [hterm]), hr]
      exact ⟨_, _, rfl⟩

/-- The loop stops at the first transport error or terminal status: the
oracle entries after that point are never consulted. -/
theorem sora_poll_loop_stops (pre : List PollResp) :
    ∀ (prev : String) (q : PollResp) (rest : List PollResp),
      (∀ p ∈ pre, p.nonTerminalOk = true) → q.nonTerminalOk = false →
      sora_poll_loop prev (pre ++ q :: rest) = sora_poll_loop prev (pre ++ [q]) := by
  induction pre with
  | nil =>
    intro prev q rest _ hq
    cases q with
    | err m => rfl
    | ok st g =>
      have hterm : isTerminal st = true := by
        simpa [PollResp.nonTerminalOk] using hq
      simp only [List.nil_append]
      rw [sora_poll_loop, sora_poll_loop, if_pos hterm, if_pos hterm]
  | cons p pre' ih =>
    intro prev q rest hpre hq
    cases p with
    | err m => exact absurd (hpre _ (List.mem_cons_self _ _)) (by simp [PollResp.nonTerminalOk])
    | ok st g =>
      have hterm : isTerminal st = false := by
        have := hpre _ (List.mem_cons_self _ _)
        simpa [PollResp.nonTerminalOk] using this
      have hpre' : ∀ p ∈ pre', p.nonTerminalOk = true := fun p hp =>
        hpre p (List.mem_cons_of_mem _ hp)
      simp only [List.cons_append]
      rw [sora_poll_loop, sora_poll_loop, ih st q rest hpre' hq]

/- Run equations for the video tool, one per control-flow path. -/

theorem sora_run_eq_createFail (d : String) (s : Int) (o : SoraOracle)
    (hc : o.createStatus ≠ 201) :
    sora_video_generation d s o
      = RunResult.done [soraStart, soraExec, soraCreateFailEvent o.createDetail] [] := by
  unfold sora_video_generation
  rw [if_pos hc]

theorem sora_run_eq_pollFail (d : String) (s : Int) (o : SoraOracle)
    (es2 : List Event) (ds2 : List Nat) (hc : o.createStatus = 201)
    (hl : sora_poll_loop "started" o.polls = LoopResult.failed es2 ds2) :
    sora_video_generation d s o
      = RunResult.done ([soraStart, soraExec, soraJobCreated o.createId] ++ es2) [] := by
  simp [sora_video_generation, hc, hl]

theorem sora_run_eq_exhausted (d : String) (s : Int) (o : SoraOracle)
    (es2 : List Event) (ds2 : List Nat) (hc : o.createStatus = 201)
    (hl : sora_poll_loop "started" o.polls = LoopResult.exhausted es2 ds2) :
    sora_video_generation d s o
      = RunResult.diverge ([soraStart, soraExec, soraJobCreated o.createId] ++ es2) := by
  simp [sora_video_generation, hc, hl]

theorem sora_run_eq_notSucceeded (d : String) (s : Int) (o : SoraOracle)
    (es2 : List Event) (ds2 : List Nat) (st : String) (gens : List GenEntry)
    (hc : o.createStatus = 201)
    (hl : sora_poll_loop "started" o.polls = LoopResult.terminal es2 ds2 st gens)
    (hs : st ≠ "succeeded") :
    sora_video_generation d s o
      = RunResult.done
          ([soraStart, soraExec, soraJobCreated o.createId] ++ es2 ++ [soraRunCompleted])
          [""] := by
  simp [sora_video_generation, hc, hl, hs]

theorem sora_run_eq_succeededNoGens (d : String) (s : Int) (o : SoraOracle)
    (es2 : List Event) (ds2 : List Nat) (hc : o.createStatus = 201)
    (hl : sora_poll_loop "started" o.polls = LoopResult.terminal es2 ds2 "succeeded" []) :
    sora_video_generation d s o
      = RunResult.done
          ([soraStart, soraExec, soraJobCreated o.createId] ++ es2 ++ [soraRunCompleted])
          [""] := by
  simp [sora_video_generation, hc, hl]

theorem sora_run_eq_fetchFail (d : String) (s : Int) (o : SoraOracle)
    (es2 : List Event) (ds2 : List Nat) (g1 : GenEntry) (gs : List GenEntry)
    (hc : o.createStatus = 201)
    (hl : sora_poll_loop "started" o.polls
        = LoopResult.terminal es2 ds2 "succeeded" (g1 :: gs))
    (hf : o.fetchStatus ≠ 200) :
    sora_video_generation d s o
      = RunResult.done
          ([soraStart, soraExec, soraJobCreated o.createId] ++ es2
            ++ [soraFetchFailEvent o.fetchError]) [] := by
  simp [sora_video_generation, hc, hl, hf]

theorem sora_run_eq_success (d : String) (s : Int) (o : SoraOracle)
    (es2 : List Event) (ds2 : List Nat) (g1 : GenEntry) (gs : List GenEntry)
    (hc : o.createStatus = 201)
    (hl : sora_poll_loop "started" o.polls
        = LoopResult.terminal es2 ds2 "succeeded" (g1 :: gs))
    (hf : o.fetchStatus = 200) :
    sora_video_generation d s o
      = RunResult.done
          ([soraStart, soraExec, soraJobCreated o.createId] ++ es2
            ++ [soraMovingToStorage, soraVideoCompleted d s o.videoBlob, soraRunCompleted])
          [""] := by
  simp [sora_video_generation, hc, hl, hf]

/- Claims. -/

/-- C1 (counterexample): on the empty-result path the image generation
tool returns `[]` having emitted no terminal-phase event at all — the
trace of a run whose provider response is successful but has an empty
`data` array contains neither a `run completed` nor a `step failed`
event, refuting the claim that no invocation returns without a
terminal-phase event. -/
theorem C1_counterexample :
    (gpt_image_generation "a cat" 1 (fun bs => bs) ⟨none, some []⟩).2 = Except.ok []
    ∧ (gpt_image_generation "a cat" 1 (fun bs => bs) ⟨none, some []⟩).1.all
        (fun e => !(isTerminalEvent e)) = true := by
  decide

/-- C1 (amended): every invocation that returns emits exactly one
terminal-phase event (`run completed` or `step failed`) before
returning, except on the empty-result path of the image generation and
image edit tools, where the tool returns `[]` having emitted zero
terminal-phase events. -/
theorem C1_terminal_event_amended :
    (∀ (d : String) (n : Int) (blobs : List String → List String)
        (resp : ImageResp) (r : List String),
      (gpt_image_generation d n blobs resp).2 = Except.ok r →
        terminalCount (gpt_image_generation d n blobs resp).1 = 1
        ∨ (resp.data = some [] ∧ r = []
            ∧ terminalCount (gpt_image_generation d n blobs resp).1 = 0))
    ∧ (∀ (d img k : String) (blobs : List String → List String)
        (resp : ImageResp) (r : List String),
      (gpt_image_edit d img k blobs resp).2 = Except.ok r →
        terminalCount (gpt_image_edit d img k blobs resp).1 = 1
        ∨ (resp.data = some [] ∧ r = []
            ∧ terminalCount (gpt_image_edit d img k blobs resp).1 = 0))
    ∧ (∀ (d : String) (s : Int) (o : SoraOracle) (es : List Event) (r : List String),
      sora_video_generation d s o = RunResult.done es r → terminalCount es = 1) := by
  refine ⟨?_, ?_, ?_⟩
  · intro d n blobs resp r h
    obtain ⟨err, dat⟩ := resp
    cases err with
    | some e => exact Or.inl rfl
    | none =>
      cases dat with
      | none => exact absurd h (by simp [gpt_image_generation])
      | some data =>
        cases data with
        | nil =>
          have hr : r = [] := by simpa [gpt_image_generation] using h.symm
          exact Or.inr ⟨rfl, hr, rfl⟩
        | cons it rest =>
          cases hex : extract_b64 (it :: rest) with
          | error e =>
            rw [show gpt_image_generation d n blobs ⟨none, some (it :: rest)⟩
                = ([imageGenStarted, imageGenExecuting, imageGenFetching n, imageGenStoring n],
                   Except.error e) from by simp [gpt_image_generation, hex]] at h
            exact absurd h (by simp)
          | ok payloads =>
            left
            rw [show gpt_image_generation d n blobs ⟨none, some (it :: rest)⟩
                = ([imageGenStarted, imageGenExecuting, imageGenFetching n, imageGenStoring n]
                    ++ (blobs payloads).map (imageStepCompleted d) ++ [imageGenCompleted],
                   Except.ok (blobs payloads)) from by simp [gpt_image_generation, hex]]
            have h2 : terminalCount ((blobs payloads).map (imageStepCompleted d)) = 0 := by
              simp [terminalCount, filter_map_of_false _ _ (isTerminalEvent_imageStepCompleted d)]
            rw [terminalCount_append, terminalCount_append, h2,
              show terminalCount [imageGenStarted, imageGenExecuting, imageGenFetching n,
                imageGenStoring n] = 0 from rfl,
              show terminalCount [imageGenCompleted] = 1 from rfl]
  · intro d img k blobs resp r h
    obtain ⟨err, dat⟩ := resp
    cases err with
    | some e => exact Or.inl rfl
    | none =>
      cases dat with
      | none => exact absurd h (by simp [gpt_image_edit])
      | some data =>
        cases data with
        | nil =>
          have hr : r = [] := by simpa [gpt_image_edit] using h.symm
          exact Or.inr ⟨rfl, hr, rfl⟩
        | cons it rest =>
          cases hex : extract_b64 (it :: rest) with
          | error e =>
            rw [show gpt_image_edit d img k blobs ⟨none, some (it :: rest)⟩
                = ([imageEditStarted, imageEditExecuting, imageEditFetching, imageEditStoring],
                   Except.error e) from by simp [gpt_image_edit, hex]] at h
            exact absurd h (by simp)
          | ok payloads =>
            left
            rw [show gpt_image_edit d img k blobs ⟨none, some (it :: rest)⟩
                = ([imageEditStarted, imageEditExecuting, imageEditFetching, imageEditStoring]
                    ++ (blobs payloads).map (imageEditStepCompleted d k) ++ [imageEditCompleted],
                   Except.ok (blobs payloads)) from by simp [gpt_image_edit, hex]]
            have h2 : terminalCount ((blobs payloads).map (imageEditStepCompleted d k)) = 0 := by
              simp [terminalCount,
                filter_map_of_false _ _ (isTerminalEvent_imageEditStepCompleted d k)]
            rw [terminalCount_append, terminalCount_append, h2,
              show terminalCount [imageEditStarted, imageEditExecuting, imageEditFetching,
                imageEditStoring] = 0 from rfl,
              show terminalCount [imageEditCompleted] = 1 from rfl]
  · intro d s o es r h
    by_cases hc : o.createStatus = 201
    · cases hl : sora_poll_loop "started" o.polls with
      | failed es2 ds2 =>
        rw [sora_run_eq_pollFail d s o es2 ds2 hc hl] at h
        injection h with h1 h2
        subst h1
        obtain ⟨l, m, hshape⟩ := sora_poll_loop_failed_shape o.polls "started" es2 ds2 hl
        subst hshape
        rw [terminalCount_append, terminalCount_append, terminalCount_map_statusChange,
          show terminalCount [soraStart, soraExec, soraJobCreated o.createId] = 0 from rfl,
          show terminalCount [pollFailEvent m] = 1 from rfl]
      | exhausted es2 ds2 =>
        rw [sora_run_eq_exhausted d s o es2 ds2 hc hl] at h
        exact RunResult.noConfusion h
      | terminal es2 ds2 st gens =>
        obtain ⟨l, hshape⟩ := sora_poll_loop_terminal_shape o.polls "started" es2 ds2 st gens hl
        subst hshape
        by_cases hs : st = "succeeded"
        · subst hs
          cases gens with
          | nil =>
            rw [sora_run_eq_succeededNoGens d s o _ ds2 hc hl] at h
            injection h with h1 h2
            subst h1
            rw [terminalCount_append, terminalCount_append, terminalCount_map_statusChange,
              show terminalCount [soraStart, soraExec, soraJobCreated o.createId] = 0 from rfl,
              show terminalCount [soraRunCompleted] = 1 from rfl]
          | cons g1 gs =>
            by_cases hf : o.fetchStatus = 200
            · rw [sora_run_eq_success d s o _ ds2 g1 gs hc hl hf] at h
              injection h with h1 h2
              subst h1
              rw [terminalCount_append, terminalCount_append, terminalCount_map_statusChange,
                show terminalCount [soraStart, soraExec, soraJobCreated o.createId] = 0 from rfl,
                show terminalCount [soraMovingToStorage,
                  soraVideoCompleted d s o.videoBlob, soraRunCompleted] = 1 from rfl]
            · rw [sora_run_eq_fetchFail d s o _ ds2 g1 gs hc hl hf] at h
              injection h with h1 h2
              subst h1
              rw [terminalCount_append, terminalCount_append, terminalCount_map_statusChange,
                show terminalCount [soraStart, soraExec, soraJobCreated o.createId] = 0 from rfl,
                show terminalCount [soraFetchFailEvent o.fetchError] = 1 from rfl]
        · rw [sora_run_eq_notSucceeded d s o _ ds2 st gens hc hl hs] at h
          injection h with h1 h2
          subst h1
          rw [terminalCount_append, terminalCount_append, terminalCount_map_statusChange,
            show terminalCount [soraStart, soraExec, soraJobCreated o.createId] = 0 from rfl,
            show terminalCount [soraRunCompleted] = 1 from rfl]
    · rw [sora_run_eq_createFail d s o hc] at h
      injection h with h1 h2
      subst h1
      rfl

/-- C1 (witness): the amended theorem applied to a concrete failed
submission. -/
theorem C1_terminal_event_witness :
    terminalCount [soraStart, soraExec, soraCreateFailEvent (some "bad")] = 1 :=
  C1_terminal_event_amended.2.2 "a dog" 5 ⟨400, some "bad", "", [], 200, none, ""⟩
    [soraStart, soraExec, soraCreateFailEvent (some "bad")] [] rfl

/-- C2 (code evaluation at the failing input): a video job that polls to
the terminal status `failed` does not produce a `step_failed` event and
does not return `[]`; the code falls through to the unconditional
`run completed` notification and returns `[""]`.  The second conjunct
shows the result is independent of the content-fetch oracle, i.e. no
content fetch is consulted on this path. -/
theorem C2_failed_job_behavior :
    sora_video_generation "a storm" 5
        ⟨201, none, "job-1", [PollResp.ok "queued" [], PollResp.ok "failed" []],
          200, none, "video-blob-1.mp4"⟩
      = RunResult.done [soraStart, soraExec, soraJobCreated "job-1",
          statusChangeEvent "queued", statusChangeEvent "failed", soraRunCompleted] [""]
    ∧ (∀ (fs : Nat) (fe : Option String) (vb : String),
        sora_video_generation "a storm" 5
          ⟨201, none, "job-1", [PollResp.ok "queued" [], PollResp.ok "failed" []],
            fs, fe, vb⟩
        = RunResult.done [soraStart, soraExec, soraJobCreated "job-1",
            statusChangeEvent "queued", statusChangeEvent "failed", soraRunCompleted] [""])
    ∧ terminalCount [soraStart, soraExec, soraJobCreated "job-1",
        statusChangeEvent "queued", statusChangeEvent "failed", soraRunCompleted] = 1
    ∧ isTerminalEvent soraRunCompleted = true
    ∧ ([""] : List String) ≠ [] := by
  exact ⟨rfl, fun fs fe vb => rfl, rfl, rfl, by decide⟩

/-- C3 (code evaluation at the failing input): on a fully successful video
run the persisted reference appears in the `step completed` event, but the
tool returns the literal `[""]`, not the list of produced references. -/
theorem C3_success_return_value :
    sora_video_generation "a storm" 5
        ⟨201, none, "job-1",
          [PollResp.ok "queued" [], PollResp.ok "running" [],
           PollResp.ok "succeeded" [⟨"gen-1"⟩]],
          200, none, "video-blob-1.mp4"⟩
      = RunResult.done [soraStart, soraExec, soraJobCreated "job-1",
          statusChangeEvent "queued", statusChangeEvent "running",
          statusChangeEvent "succeeded", soraMovingToStorage,
          soraVideoCompleted "a storm" 5 "video-blob-1.mp4", soraRunCompleted] [""]
    ∧ ([""] : List String) ≠ ["video-blob-1.mp4"] := by
  exact ⟨rfl, by decide⟩

/-- C4 (counterexample): for the polled status sequence
`[queued, queued, running, running, succeeded]` the video tool emits 3
status-change events, not the claimed 2: the first observed status
`queued` already differs from the loop's initial previous-status sentinel
`"started"` and is itself announced. -/
theorem C4_counterexample :
    statusChangeCount (RunResult.events (sora_video_generation "a storm" 5
        ⟨201, none, "job-1",
          [PollResp.ok "queued" [], PollResp.ok "queued" [], PollResp.ok "running" [],
           PollResp.ok "running" [], PollResp.ok "succeeded" []],
          200, none, "v"⟩)) = 3
    ∧ statusChangeCount (RunResult.events (sora_video_generation "a storm" 5
        ⟨201, none, "job-1",
          [PollResp.ok "queued" [], PollResp.ok "queued" [], PollResp.ok "running" [],
           PollResp.ok "running" [], PollResp.ok "succeeded" []],
          200, none, "v"⟩)) ≠ 2 := by
  decide

/-- C4 (amended): the polling loop is edge-triggered against the
previously observed status, whose initial value is the sentinel
`"started"`: on an error-free poll run it emits exactly one status-change
event per change in the observed status sequence, in order; consequently
the sequence `[queued, queued, running, running, succeeded]` produces
exactly 3 status-change events (started→queued, queued→running,
running→succeeded), not 5 and not 2. -/
theorem C4_edge_triggered :
    (∀ (prev : String) (polls : List PollResp), (∀ p ∈ polls, p.isOk = true) →
      (sora_poll_loop prev polls).events
        = (edgeStatuses prev (observedStatuses polls)).map statusChangeEvent)
    ∧ statusChangeCount (RunResult.events (sora_video_generation "a storm" 5
        ⟨201, none, "job-1",
          [PollResp.ok "queued" [], PollResp.ok "queued" [], PollResp.ok "running" [],
           PollResp.ok "running" [], PollResp.ok "succeeded" []],
          200, none, "v"⟩)) = 3 := by
  exact ⟨fun prev polls h => sora_poll_loop_events_of_ok polls prev h, by decide⟩

/-- C4 (witness): the edge-trigger characterization applied to a concrete
error-free poll run. -/
theorem C4_edge_triggered_witness :
    (sora_poll_loop "started" [PollResp.ok "queued" [], PollResp.ok "succeeded" []]).events
      = (edgeStatuses "started"
          (observedStatuses [PollResp.ok "queued" [], PollResp.ok "succeeded" []])).map
          statusChangeEvent :=
  C4_edge_triggered.1 "started" [PollResp.ok "queued" [], PollResp.ok "succeeded" []]
    (by decide)

/-- C5: a non-201 job-creation response makes the video tool emit exactly
the start events plus one `step failed` event carrying the `detail` field
of the error body (default `"Unknown error"`), perform zero polls (the
trace contains no status-change event and the result does not depend on
the poll oracle), and return `[]`. -/
theorem C5_submission_failure (d : String) (s : Int) (o : SoraOracle)
    (h : o.createStatus ≠ 201) :
    sora_video_generation d s o
      = RunResult.done [soraStart, soraExec, soraCreateFailEvent o.createDetail] []
    ∧ statusChangeCount [soraStart, soraExec, soraCreateFailEvent o.createDetail] = 0
    ∧ ([soraStart, soraExec, soraCreateFailEvent o.createDetail].filter
        (fun e => e.status == "step failed")).length = 1
    ∧ soraCreateFailEvent o.createDetail
        = ⟨"sora_video_generation", "step failed",
            some (o.createDetail.getD "Unknown error"), none, false⟩ := by
  exact ⟨sora_run_eq_createFail d s o h, rfl, rfl, rfl⟩

/-- C5 (witness): the submission-failure theorem applied to a concrete
rejected creation request (the poll oracle is non-empty to exhibit that it
is ignored). -/
theorem C5_submission_failure_witness :
    sora_video_generation "a storm" 5
        ⟨400, some "quota exceeded", "", [PollResp.ok "queued" []], 200, none, ""⟩
      = RunResult.done [soraStart, soraExec, soraCreateFailEvent (some "quota exceeded")] [] :=
  (C5_submission_failure "a storm" 5
    ⟨400, some "quota exceeded", "", [PollResp.ok "queued" []], 200, none, ""⟩ (by decide)).1

/-- Helper for C6: two `step completed` events of the image generation
tool with the same description are equal only if they carry the same
reference. -/
theorem imageStepCompleted_injective (d : String) :
    Function.Injective (imageStepCompleted d) := by
  intro a b h
  simpa [imageStepCompleted] using h

/-- C6: when the provider response of the image generation tool is
successful and carries N artifacts (N non-empty payloads), the persistence
adapter is driven once with exactly those N payloads in order, and, given
the adapter's contract of one distinct reference per input in input order,
the tool emits exactly N `step completed` events — one per reference, in
adapter order, each with the output flag set true and all distinct — and
returns exactly the adapter's reference list. -/
theorem C6_artifact_parity (d : String) (n : Int)
    (blobs : List String → List String) (payloads : List String)
    (hne : payloads ≠ []) (hnz : ∀ s ∈ payloads, s ≠ "")
    (hlen : (blobs payloads).length = payloads.length)
    (hnd : (blobs payloads).Nodup) :
    (gpt_image_generation d n blobs
        ⟨none, some (payloads.map fun s => ⟨some s⟩)⟩).2
      = Except.ok (blobs payloads)
    ∧ ((gpt_image_generation d n blobs
        ⟨none, some (payloads.map fun s => ⟨some s⟩)⟩).1.filter
          (fun e => e.status == "step completed"))
      = (blobs payloads).map (imageStepCompleted d)
    ∧ ((blobs payloads).map (imageStepCompleted d)).length = payloads.length
    ∧ (∀ e ∈ (blobs payloads).map (imageStepCompleted d), e.output = true)
    ∧ ((blobs payloads).map (imageStepCompleted d)).Nodup := by
  obtain ⟨p, ps, rfl⟩ := List.exists_cons_of_ne_nil hne
  have hx : extract_b64 ((p :: ps).map fun s => (⟨some s⟩ : ImageItem))
      = Except.ok (p :: ps) := extract_b64_map _ hnz
  have hrun : gpt_image_generation d n blobs
      ⟨none, some ((p :: ps).map fun s => ⟨some s⟩)⟩
      = ([imageGenStarted, imageGenExecuting, imageGenFetching n, imageGenStoring n]
          ++ (blobs (p :: ps)).map (imageStepCompleted d) ++ [imageGenCompleted],
         Except.ok (blobs (p :: ps))) := by
    simp only [List.map_cons] at hx ⊢
    simp [gpt_image_generation, hx]
  refine ⟨?_, ?_, ?_, ?_, ?_⟩
  · rw [hrun]
  · rw [hrun]
    show ([imageGenStarted, imageGenExecuting, imageGenFetching n, imageGenStoring n]
        ++ (blobs (p :: ps)).map (imageStepCompleted d) ++ [imageGenCompleted]).filter
          (fun e => e.status == "step completed")
      = (blobs (p :: ps)).map (imageStepCompleted d)
    rw [List.filter_append, List.filter_append,
      show List.filter (fun e => e.status == "step completed")
        [imageGenStarted, imageGenExecuting, imageGenFetching n, imageGenStoring n]
        = [] from rfl,
      filter_map_of_true _ _ (fun b => rfl),
      show List.filter (fun e => e.status == "step completed") [imageGenCompleted]
        = [] from rfl]
    simp
  · simp [hlen]
  · intro e he
    obtain ⟨b, _, rfl⟩ := List.mem_map.1 he
    rfl
  · exact hnd.map (imageStepCompleted_injective d)

/-- C6 (witness): the parity theorem applied to a concrete two-artifact
response (conclusion: the returned references are the adapter's two blob
names). -/
theorem C6_artifact_parity_witness :
    (gpt_image_generation "a cat" 2 (fun ps => ["blob-1.png", "blob-2.png"])
        ⟨none, some (["p1", "p2"].map fun s => ⟨some s⟩)⟩).2
      = Except.ok ["blob-1.png", "blob-2.png"] :=
  (C6_artifact_parity "a cat" 2 (fun ps => ["blob-1.png", "blob-2.png"]) ["p1", "p2"]
    (by decide) (by decide) (by decide) (by decide)).1

/-- C7: a successful provider response with an empty result set makes both
the image generation and the image edit tool return the empty list without
any exception, emitting no `step completed` event and no `step failed`
event. -/
theorem C7_zero_artifact_safety :
    (∀ (d : String) (n : Int) (blobs : List String → List String),
      (gpt_image_generation d n blobs ⟨none, some []⟩).2 = Except.ok []
      ∧ ((gpt_image_generation d n blobs ⟨none, some []⟩).1.filter
          (fun e => e.status == "step completed")) = []
      ∧ ((gpt_image_generation d n blobs ⟨none, some []⟩).1.filter
          (fun e => e.status == "step failed")) = [])
    ∧ (∀ (d img k : String) (blobs : List String → List String),
      (gpt_image_edit d img k blobs ⟨none, some []⟩).2 = Except.ok []
      ∧ ((gpt_image_edit d img k blobs ⟨none, some []⟩).1.filter
          (fun e => e.status == "step completed")) = []
      ∧ ((gpt_image_edit d img k blobs ⟨none, some []⟩).1.filter
          (fun e => e.status == "step failed")) = []) :=
  ⟨fun d n blobs => ⟨rfl, rfl, rfl⟩, fun d img k blobs => ⟨rfl, rfl, rfl⟩⟩

/-- C8 (counterexample): the `/create` image endpoint does not absorb a
provider-facing failure at the tool boundary: a non-200 provider response
makes `create_image` raise an exception (modelled as `Except.error`)
instead of returning a result, refuting the claim that provider failures
are never raised past the tool boundary to the caller. -/
theorem C8_counterexample :
    create_image none "make a logo" (fun b => "saved.png") "http://localhost:8000"
        ⟨200, 400, none, "bad request"⟩
      = Except.error ("Error generating image: " ++ "bad request") := by
  decide

/-- C8 (amended): every provider-facing failure the agent tools detect is
absorbed at the tool boundary into a `step failed` event plus an empty
return list — an error field in the body (image generation and image
edit), a non-201 job creation response, a non-200 mid-poll status fetch
(emitting exactly one failure event after the status-change events), and
a non-200 content fetch (video tool).  But two kinds of path do raise
past the tool boundary: the agent image tools raise a `KeyError` when a
successful body lacks the expected `data` field, and the `create_image`
endpoint raises on a non-200 provider response (carrying the provider's
error text), on a 200 response without usable result data, and on a
failed reference-image fetch. -/
theorem C8_error_absorption_amended :
    (∀ (d : String) (n : Int) (blobs : List String → List String)
        (err : String) (dat : Option (List ImageItem)),
      gpt_image_generation d n blobs ⟨some err, dat⟩
        = ([imageGenStarted, imageGenExecuting, imageGenFailed err], Except.ok []))
    ∧ (∀ (d img k : String) (blobs : List String → List String)
        (err : String) (dat : Option (List ImageItem)),
      gpt_image_edit d img k blobs ⟨some err, dat⟩
        = ([imageEditStarted, imageEditExecuting, imageGenFailed err], Except.ok []))
    ∧ (∀ (d : String) (s : Int) (o : SoraOracle), o.createStatus ≠ 201 →
      sora_video_generation d s o
        = RunResult.done [soraStart, soraExec, soraCreateFailEvent o.createDetail] [])
    ∧ (∀ (d : String) (s : Int) (o : SoraOracle) (es2 : List Event) (ds2 : List Nat),
      o.createStatus = 201 →
      sora_poll_loop "started" o.polls = LoopResult.failed es2 ds2 →
      sora_video_generation d s o
        = RunResult.done ([soraStart, soraExec, soraJobCreated o.createId] ++ es2) []
      ∧ ∃ (l : List String) (m : Option String),
          es2 = l.map statusChangeEvent ++ [pollFailEvent m])
    ∧ (∀ (d : String) (s : Int) (o : SoraOracle) (es2 : List Event) (ds2 : List Nat)
        (g1 : GenEntry) (gs : List GenEntry),
      o.createStatus = 201 →
      sora_poll_loop "started" o.polls = LoopResult.terminal es2 ds2 "succeeded" (g1 :: gs) →
      o.fetchStatus ≠ 200 →
      sora_video_generation d s o
        = RunResult.done ([soraStart, soraExec, soraJobCreated o.createId] ++ es2
            ++ [soraFetchFailEvent o.fetchError]) [])
    ∧ (∀ (d : String) (n : Int) (blobs : List String → List String),
      gpt_image_generation d n blobs ⟨none, none⟩
        = ([imageGenStarted, imageGenExecuting, imageGenFetching n],
           Except.error "KeyError: data"))
    ∧ (∀ (d img k : String) (blobs : List String → List String),
      gpt_image_edit d img k blobs ⟨none, none⟩
        = ([imageEditStarted, imageEditExecuting, imageEditFetching],
           Except.error "KeyError: data"))
    ∧ (∀ (ds : String) (save : String → String) (burl : String) (o : ImageToolOracle),
      o.postStatus ≠ 200 →
      create_image none ds save burl o
        = Except.error ("Error generating image: " ++ o.errorText))
    ∧ (∀ (ds : String) (save : String → String) (burl : String) (o : ImageToolOracle),
      o.postStatus = 200 → (o.postData = none ∨ o.postData = some []) →
      create_image none ds save burl o
        = Except.error "No image data returned from the API.")
    ∧ (∀ (img ds : String) (save : String → String) (burl : String) (o : ImageToolOracle),
      img.startsWith "http" = true → o.urlFetchStatus ≠ 200 →
      create_image (some img) ds save burl o
        = Except.error ("Error fetching image from URL: " ++ img)) := by
  refine ⟨fun d n blobs err dat => rfl, fun d img k blobs err dat => rfl,
    fun d s o h => sora_run_eq_createFail d s o h, ?_, ?_,
    fun d n blobs => rfl, fun d img k blobs => rfl, ?_, ?_, ?_⟩
  · intro d s o es2 ds2 hc hl
    exact ⟨sora_run_eq_pollFail d s o es2 ds2 hc hl,
      sora_poll_loop_failed_shape o.polls "started" es2 ds2 hl⟩
  · intro d s o es2 ds2 g1 gs hc hl hf
    exact sora_run_eq_fetchFail d s o es2 ds2 g1 gs hc hl hf
  · intro ds save burl o h
    simp [create_image, h]
  · intro ds save burl o h hd
    cases hd with
    | inl hd => simp [create_image, h, hd]
    | inr hd => simp [create_image, h, hd]
  · intro img ds save burl o h1 h2
    simp [create_image, h1, h2]

/-- C8 (witness): the amended theorem applied to concrete runs — the
mid-poll transport error absorbed by the video tool, and the non-200
provider response on which the `/create` endpoint raises. -/
theorem C8_error_absorption_witness :
    sora_video_generation "a storm" 5
        ⟨201, none, "job-2", [PollResp.ok "queued" [], PollResp.err (some "boom")],
          200, none, "v"⟩
      = RunResult.done ([soraStart, soraExec, soraJobCreated "job-2"]
          ++ [statusChangeEvent "queued", pollFailEvent (some "boom")]) []
    ∧ create_image none "a hat" (fun b => "s.png") "http://localhost:8000"
        ⟨200, 500, none, "server error"⟩
      = Except.error ("Error generating image: " ++ "server error") :=
  ⟨(C8_error_absorption_amended.2.2.2.1 "a storm" 5
      ⟨201, none, "job-2", [PollResp.ok "queued" [], PollResp.err (some "boom")],
        200, none, "v"⟩
      [statusChangeEvent "queued", pollFailEvent (some "boom")] [5, 5] rfl rfl).1,
   C8_error_absorption_amended.2.2.2.2.2.2.2.1 "a hat" (fun b => "s.png")
     "http://localhost:8000" ⟨200, 500, none, "server error"⟩ (by decide)⟩

/-- C9: the polling loop (a) performs exactly one constant five-second
wait per status fetch — no backoff schedule; (b) has no maximum attempt
count — after any number of non-terminal observations it is still
polling; and (c) exits exactly at the first transport error or terminal
status, never consulting any later poll outcome (the failed poll is not
retried). -/
theorem C9_polling_policy :
    (∀ (prev : String) (polls : List PollResp),
      (sora_poll_loop prev polls).delays
        = List.replicate (consumedPolls polls).length 5)
    ∧ (∀ (polls : List PollResp), (∀ p ∈ polls, p.nonTerminalOk = true) →
      ∀ prev : String, ∃ es ds, sora_poll_loop prev polls = LoopResult.exhausted es ds)
    ∧ (∀ (pre : List PollResp) (prev : String) (q : PollResp) (rest : List PollResp),
      (∀ p ∈ pre, p.nonTerminalOk = true) → q.nonTerminalOk = false →
      sora_poll_loop prev (pre ++ q :: rest) = sora_poll_loop prev (pre ++ [q])) :=
  ⟨fun prev polls => sora_poll_loop_delays polls prev,
   fun polls h prev => sora_poll_loop_no_cap polls prev h,
   fun pre prev q rest hpre hq => sora_poll_loop_stops pre prev q rest hpre hq⟩

/-- C9 (witness): the loop-termination component applied concretely — a
transport error after one non-terminal poll makes the loop ignore every
later oracle entry. -/
theorem C9_polling_policy_witness :
    sora_poll_loop "started"
        ([PollResp.ok "queued" []] ++ PollResp.err (some "boom") :: [PollResp.ok "running" []])
      = sora_poll_loop "started" ([PollResp.ok "queued" []] ++ [PollResp.err (some "boom")]) :=
  C9_polling_policy.2.2 [PollResp.ok "queued" []] "started" (PollResp.err (some "boom"))
    [PollResp.ok "running" []] (by decide) (by decide)

/-- C10: events within one invocation do not all carry the invocation's
tool identifier.  When the image edit tool's provider response carries an
error, the `step failed` event it emits is labelled `image_generation`
while the other events of the same invocation are labelled `image_edit`;
and when the video tool's content fetch fails, the `step failed` event is
labelled `video_generation` while the other events of the invocation are
labelled `sora_video_generation`. -/
theorem C10_mislabelled_failure_ids :
    (∀ (d img k : String) (blobs : List String → List String)
        (err : String) (dat : Option (List ImageItem)),
      (gpt_image_edit d img k blobs ⟨some err, dat⟩).1
        = [imageEditStarted, imageEditExecuting, imageGenFailed err]
      ∧ (imageGenFailed err).id = "image_generation"
      ∧ imageEditStarted.id = "image_edit"
      ∧ imageEditExecuting.id = "image_edit"
      ∧ ("image_generation" : String) ≠ "image_edit")
    ∧ (∀ (d : String) (s : Int) (o : SoraOracle) (es2 : List Event) (ds2 : List Nat)
        (g1 : GenEntry) (gs : List GenEntry),
      o.createStatus = 201 →
      sora_poll_loop "started" o.polls = LoopResult.terminal es2 ds2 "succeeded" (g1 :: gs) →
      o.fetchStatus ≠ 200 →
      sora_video_generation d s o
        = RunResult.done ([soraStart, soraExec, soraJobCreated o.createId] ++ es2
            ++ [soraFetchFailEvent o.fetchError]) []
      ∧ (soraFetchFailEvent o.fetchError).id = "video_generation"
      ∧ (∀ e ∈ [soraStart, soraExec, soraJobCreated o.createId],
          e.id = "sora_video_generation")
      ∧ ("video_generation" : String) ≠ "sora_video_generation") := by
  refine ⟨fun d img k blobs err dat => ⟨rfl, rfl, rfl, rfl, by decide⟩, ?_⟩
  intro d s o es2 ds2 g1 gs hc hl hf
  refine ⟨sora_run_eq_fetchFail d s o es2 ds2 g1 gs hc hl hf, rfl, ?_, by decide⟩
  intro e he
  simp only [List.mem_cons, List.not_mem_nil, or_false] at he
  rcases he with rfl | rfl | rfl <;> rfl

/-- C10 (witness): the second component applied to a concrete succeeded
job whose content fetch answers 404. -/
theorem C10_mislabelled_failure_ids_witness :
    sora_video_generation "a storm" 5
        ⟨201, none, "job-9", [PollResp.ok "succeeded" [⟨"gen-1"⟩]], 404, some "nope", "v"⟩
      = RunResult.done ([soraStart, soraExec, soraJobCreated "job-9"]
          ++ [statusChangeEvent "succeeded"] ++ [soraFetchFailEvent (some "nope")]) [] :=
  (C10_mislabelled_failure_ids.2 "a storm" 5
    ⟨201, none, "job-9", [PollResp.ok "succeeded" [⟨"gen-1"⟩]], 404, some "nope", "v"⟩
    [statusChangeEvent "succeeded"] [5] ⟨"gen-1"⟩ [] rfl rfl (by decide)).1
